import Mathlib

/-!
Shallow embedding of the lxc-rs binding layer (src/lxc/src/lib.rs).

Host strings (Rust String and str slices) are modelled as byte lists.
A CString constructor followed by unwrap is modelled by a contains-0
test: an embedded NUL byte makes the constructor fail and the unwrap
panic, so the embedded functions return none (panic) in that case.

The native liblxc boundary is opaque to the crate: it is modelled by an
oracle structure whose fields mirror the function-pointer table, and
every embedded method also returns the ordered trace of boundary calls
it made, recording for each string argument the kind of buffer passed
(CBuf.nulTerm for a NUL-terminated CString buffer, CBuf.raw for a raw
unterminated str-slice pointer, as in the list function which passes
lxcpath.as_ptr() with no conversion).
-/

namespace Lxc

/-- Byte strings: the contents of a Rust String or str slice. -/
abbrev Bytes := List Nat

/-- The error enumeration of the crate (lib.rs lines 10-15). -/
inductive Error where
  | ContainerDoesNotExists
  | ContainerAlreadyExists
  | Unknown
deriving DecidableEq

/-- The kind of buffer handed to a boundary call for a string argument:
either a NUL-terminated CString buffer (the terminator is implicit, the
bytes hold no 0), or the raw bytes of a str slice with no terminator. -/
inductive CBuf where
  | nulTerm (bytes : Bytes)
  | raw (bytes : Bytes)
deriving DecidableEq

/-- One boundary call made by a container-level method, in program order.
Handles are opaque and modelled as Nat; argv entries are some buffer or
none for the null sentinel pointer. -/
inductive Event where
  | newCall (name lxcpath : CBuf) (ret : Option Nat)
  | definedCall (h : Nat) (ret : Bool)
  | putCall (h : Nat)
  | createCall (h : Nat) (tmplName : CBuf) (flags : Nat) (argv : List (Option CBuf)) (ret : Bool)
  | listCall (lxcpath : CBuf) (ret : Int)
deriving DecidableEq

/-- True exactly on a release (lxc_container_put) event. -/
def Event.isPut : Event → Bool
  | .putCall _ => true
  | _ => false

/-- True exactly on a successful acquisition (lxc_container_new returned
a non-null handle). -/
def Event.isNewOk : Event → Bool
  | .newCall _ _ (some _) => true
  | _ => false

/-- Oracle for the native function-pointer table used by the
container-level associated functions. containerNew takes the name and
the lxcpath (in the order the source passes them) and returns the
acquired handle, or none for a null pointer; listDefined returns the
signed count together with the handle array it populated. -/
structure NativeOps where
  containerNew : Bytes → Bytes → Option Nat
  isDefined : Nat → Bool
  handleName : Nat → Bytes
  createCall : Nat → Bytes → Nat → List (Option CBuf) → Bool
  listDefined : Bytes → Int × List Nat

/-- The LXC_CREATE_QUIET flag passed by create (lib.rs line 216). -/
def LXC_CREATE_QUIET : Nat := 1

/-- Template struct (lib.rs lines 31-34): a template script name plus
the accumulated flat option strings. -/
structure Template where
  name : Bytes
  options : List Bytes
deriving DecidableEq

/-- Template::new (lib.rs lines 38-43). -/
def Template.new (name : Bytes) : Template :=
  { name := name, options := [] }

/-- Template::option (lib.rs lines 47-51): pushes the flag string and
then the value string onto the option list. -/
def Template.option (t : Template) (opt value : Bytes) : Template :=
  { t with options := t.options ++ [opt, value] }

/-- The templates reachable through the public builder API: Template::new
followed by any sequence of Template::option calls (the options field is
private, so these are the only constructors available to a caller). -/
inductive Template.Reachable : Template → Prop
  | new (n : Bytes) : Template.Reachable (Template.new n)
  | option (t : Template) (o v : Bytes) : Template.Reachable t →
      Template.Reachable (t.option o v)

/-- Container struct (lib.rs lines 89-94): the raw handle plus the
copied-out name. -/
structure Container where
  handle : Nat
  name : Bytes
deriving DecidableEq

/-- Container::from_raw (lib.rs lines 99-108): wraps the raw handle and
decodes the name behind it. -/
def Container.from_raw (ops : NativeOps) (raw : Nat) : Container :=
  { handle := raw, name := ops.handleName raw }

/-- Container::exists (lib.rs lines 112-128): encodes both strings,
acquires a handle, returns false on null, otherwise returns the
is_defined answer. The source returns without ever invoking
lxc_container_put on the acquired handle, so no putCall event is
emitted on any path. -/
def Container.exists (ops : NativeOps) (lxcpath name : Bytes) :
    Option (Bool × List Event) :=
  if lxcpath.contains 0 then none else
  if name.contains 0 then none else
  match ops.containerNew name lxcpath with
  | none => some (false, [Event.newCall (.nulTerm name) (.nulTerm lxcpath) none])
  | some ct =>
      some (ops.isDefined ct,
        [Event.newCall (.nulTerm name) (.nulTerm lxcpath) (some ct),
         Event.definedCall ct (ops.isDefined ct)])

/-- Container::list (lib.rs lines 132-159): passes the lxcpath str slice
pointer directly (lxcpath.as_ptr(), no CString conversion, hence a
CBuf.raw argument and no NUL check), then maps the count: negative is
Unknown, zero is the empty vector, otherwise one from_raw wrapper per
enumerated handle in array order. -/
def Container.list (ops : NativeOps) (lxcpath : Bytes) :
    Except Error (List Container) × List Event :=
  let r := ops.listDefined lxcpath
  let evs := [Event.listCall (.raw lxcpath) r.1]
  if r.1 < 0 then (.error .Unknown, evs)
  else if r.1 = 0 then (.ok [], evs)
  else (.ok ((r.2.take r.1.toNat).map (Container.from_raw ops)), evs)

/-- Container::get (lib.rs lines 163-179): encodes both strings,
acquires a handle (null is Unknown), then requires is_defined, failing
with ContainerDoesNotExists otherwise. -/
def Container.get (ops : NativeOps) (lxcpath name : Bytes) :
    Option (Except Error Container × List Event) :=
  if lxcpath.contains 0 then none else
  if name.contains 0 then none else
  match ops.containerNew name lxcpath with
  | none => some (.error .Unknown, [Event.newCall (.nulTerm name) (.nulTerm lxcpath) none])
  | some ct =>
      if !ops.isDefined ct then
        some (.error .ContainerDoesNotExists,
          [Event.newCall (.nulTerm name) (.nulTerm lxcpath) (some ct),
           Event.definedCall ct (ops.isDefined ct)])
      else
        some (.ok (Container.from_raw ops ct),
          [Event.newCall (.nulTerm name) (.nulTerm lxcpath) (some ct),
           Event.definedCall ct (ops.isDefined ct)])

/-- The argv array built by Container::create (lib.rs lines 197-209):
one pointer per option string in order, terminated by a null sentinel. -/
def createArgv (opts : List Bytes) : List (Option CBuf) :=
  opts.map (fun o => some (CBuf.nulTerm o)) ++ [none]

/-- Container::create (lib.rs lines 182-226): encodes lxcpath, name and
the template name, acquires a handle (null is Unknown), fails with
ContainerAlreadyExists before any creation call when is_defined holds,
otherwise encodes the options, builds the null-terminated argv, invokes
the native create with the quiet flag, and maps false to Unknown. -/
def Container.create (ops : NativeOps) (lxcpath name : Bytes) (t : Template) :
    Option (Except Error Container × List Event) :=
  if lxcpath.contains 0 then none else
  if name.contains 0 then none else
  if t.name.contains 0 then none else
  match ops.containerNew name lxcpath with
  | none => some (.error .Unknown, [Event.newCall (.nulTerm name) (.nulTerm lxcpath) none])
  | some ct =>
      if ops.isDefined ct then
        some (.error .ContainerAlreadyExists,
          [Event.newCall (.nulTerm name) (.nulTerm lxcpath) (some ct),
           Event.definedCall ct true])
      else if t.options.any (fun o => o.contains 0) then none
      else
        let argv := createArgv t.options
        let ok := ops.createCall ct t.name LXC_CREATE_QUIET argv
        let evs := [Event.newCall (.nulTerm name) (.nulTerm lxcpath) (some ct),
          Event.definedCall ct false,
          Event.createCall ct (.nulTerm t.name) LXC_CREATE_QUIET argv ok]
        if !ok then some (.error .Unknown, evs)
        else some (.ok (Container.from_raw ops ct), evs)

/-- Oracle for the two config vtable entries used through self.handle.
Each takes the key (or key prefix), the destination buffer contents and
the inlen argument, and returns the signed result together with the
buffer contents after the call (the probe passes an empty buffer for the
null pointer and inlen 0). -/
structure CfgOps where
  getConfigItem : Bytes → List Nat → Int → Int × List Nat
  getKeys : Bytes → List Nat → Int → Int × List Nat

/-- One config boundary call: the key, the length of the buffer passed,
the inlen argument and the signed return value. -/
inductive CfgEvent where
  | getConfigItemCall (key : Bytes) (bufLen : Nat) (inlen : Int) (ret : Int)
  | getKeysCall (keyPre : Bytes) (bufLen : Nat) (inlen : Int) (ret : Int)
deriving DecidableEq

/-- Container::get_config_item (lib.rs lines 273-301): probe with a null
buffer, negative is Unknown, otherwise allocate size + 1 zero bytes,
fill with inlen size + 1, pop the trailing byte (before the fill result
is checked, as in the source), map a negative fill to Unknown and decode
the rest. -/
def Container.get_config_item (ops : CfgOps) (key : Bytes) :
    Option (Except Error Bytes × List CfgEvent) :=
  if key.contains 0 then none else
  let size := (ops.getConfigItem key [] 0).1
  if size < 0 then some (.error .Unknown, [CfgEvent.getConfigItemCall key 0 0 size]) else
  let value := List.replicate (size.toNat + 1) 0
  let fill := ops.getConfigItem key value (size + 1)
  if fill.1 < 0 then
    some (.error .Unknown,
      [CfgEvent.getConfigItemCall key 0 0 size,
       CfgEvent.getConfigItemCall key value.length (size + 1) fill.1])
  else
    some (.ok fill.2.dropLast,
      [CfgEvent.getConfigItemCall key 0 0 size,
       CfgEvent.getConfigItemCall key value.length (size + 1) fill.1])

/-- Container::get_keys (lib.rs lines 244-269): probe with a null
buffer; negative is Unknown, zero is the empty vector; otherwise
allocate exactly length zero bytes (not length + 1) and fill with inlen
length; a negative fill is Unknown; on success the buffer is decoded,
printed and discarded, and the returned vector is empty. -/
def Container.get_keys (ops : CfgOps) (keyPre : Bytes) :
    Option (Except Error (List Bytes) × List CfgEvent) :=
  if keyPre.contains 0 then none else
  let length := (ops.getKeys keyPre [] 0).1
  if length < 0 then some (.error .Unknown, [CfgEvent.getKeysCall keyPre 0 0 length]) else
  if length = 0 then some (.ok [], [CfgEvent.getKeysCall keyPre 0 0 length]) else
  let s := List.replicate length.toNat 0
  let fill := ops.getKeys keyPre s length
  if fill.1 < 0 then
    some (.error .Unknown,
      [CfgEvent.getKeysCall keyPre 0 0 length,
       CfgEvent.getKeysCall keyPre s.length length fill.1])
  else
    some (.ok [],
      [CfgEvent.getKeysCall keyPre 0 0 length,
       CfgEvent.getKeysCall keyPre s.length length fill.1])

/-- The in-memory configuration tree behind one handle: an association
list from keys to values, newest binding first. -/
abbrev ConfigStore := List (Bytes × Bytes)

/-- Lookup in the configuration store. -/
def storeLookup : ConfigStore → Bytes → Option Bytes
  | [], _ => none
  | (k, v) :: rest, key => if k = key then some v else storeLookup rest key

/-- Newline-joined concatenation of a key list, as the native side
returns enumerated keys in one buffer. -/
def newlineJoin : List Bytes → Bytes
  | [] => []
  | [k] => k
  | k :: k2 :: rest => k ++ [10] ++ newlineJoin (k2 :: rest)

/-- Modelled from the spec: the native get_config_item boundary call
(spec section 6, the native library is an external collaborator not in
src/). It reports the byte count of the stored value, copies the value
plus one terminator byte into the buffer when inlen admits them, and
reports a negative count for an undefined key. -/
def storeGetConfigItem (st : ConfigStore) (key : Bytes) (buf : List Nat) (inlen : Int) :
    Int × List Nat :=
  match storeLookup st key with
  | none => (-1, buf)
  | some v =>
      ((v.length : Int),
       if (v.length + 1 : Int) ≤ inlen then (v ++ [0]) ++ buf.drop (v.length + 1) else buf)

/-- Modelled from the spec: the native get_keys boundary call (spec
section 6). It reports the byte count of the newline-joined keys
matching the prefix and copies them plus a terminator when inlen admits
them. -/
def storeGetKeys (st : ConfigStore) (keyPre : Bytes) (buf : List Nat) (inlen : Int) :
    Int × List Nat :=
  let s := newlineJoin ((st.map Prod.fst).filter (fun k => k.take keyPre.length == keyPre))
  ((s.length : Int),
   if (s.length + 1 : Int) ≤ inlen then (s ++ [0]) ++ buf.drop (s.length + 1) else buf)

/-- The config vtable of a handle whose configuration tree is st. -/
def storeOps (st : ConfigStore) : CfgOps :=
  { getConfigItem := storeGetConfigItem st
    getKeys := storeGetKeys st }

/-- Modelled from the spec: the native set_config_item boundary call
(spec section 6) stores the value under the key and reports success. -/
def storeSetConfigItem (st : ConfigStore) (key value : Bytes) : Bool × ConfigStore :=
  (true, (key, value) :: st)

/-- Container::set_config_item (lib.rs lines 305-316): encodes key and
value, invokes the native set, and maps false to Unknown. The updated
configuration tree is threaded explicitly. -/
def Container.set_config_item (st : ConfigStore) (key value : Bytes) :
    Option (Except Error Unit × ConfigStore) :=
  if key.contains 0 then none else
  if value.contains 0 then none else
  if !(storeSetConfigItem st key value).1 then
    some (.error .Unknown, (storeSetConfigItem st key value).2)
  else some (.ok (), (storeSetConfigItem st key value).2)

/-- Oracle whose acquisition always succeeds with handle 7 on a defined
container. -/
def leakOps : NativeOps where
  containerNew := fun _ _ => some 7
  isDefined := fun _ => true
  handleName := fun _ => []
  createCall := fun _ _ _ _ => true
  listDefined := fun _ => (0, [])

/-- Oracle whose acquisition always fails with a null pointer and whose
enumeration reports a negative count. -/
def nullOps : NativeOps where
  containerNew := fun _ _ => none
  isDefined := fun _ => false
  handleName := fun _ => []
  createCall := fun _ _ _ _ => false
  listDefined := fun _ => (-1, [])

/-- Oracle for a path with two defined containers and an undefined name
whose acquisition succeeds with handle 7. -/
def okOps : NativeOps where
  containerNew := fun _ _ => some 7
  isDefined := fun _ => false
  handleName := fun _ => [99]
  createCall := fun _ _ _ _ => true
  listDefined := fun _ => (2, [4, 5])

/-- Config oracle whose key enumeration probe reports two bytes and
whose fill calls leave the buffer unchanged. -/
def keysOkOps : CfgOps where
  getConfigItem := fun _ buf _ => (0, buf)
  getKeys := fun _ buf _ => (2, buf)

/-- A concrete template built through the public API. -/
def tBusy : Template := (Template.new [116]).option [97] [98]

/-- Every template reachable through the public builder API has an
option list of even length: each Template::option call appends exactly
the flag and its value. -/
theorem Template.reachable_even_length {t : Template} (h : t.Reachable) :
    t.options.length % 2 = 0 := by
  induction h with
  | new n => simp [Template.new]
  | option t o v ht ih =>
      simp only [Template.option, List.length_append, List.length_cons, List.length_nil]
      omega

/-- Claim C1: exists(store_path, name) is claimed to release the
transient handle it acquires on every exit path. Evaluating the source
at an input where acquisition succeeds and the definition is present:
exists returns true after exactly one successful acquisition, and the
boundary trace contains zero release (lxc_container_put) calls, so the
transient handle is leaked, contradicting the claim. -/
theorem C1_exists_never_releases :
    Container.exists leakOps [47] [98] =
      some (true,
        [Event.newCall (CBuf.nulTerm [98]) (CBuf.nulTerm [47]) (some 7),
         Event.definedCall 7 true]) ∧
    [Event.newCall (CBuf.nulTerm [98]) (CBuf.nulTerm [47]) (some 7),
     Event.definedCall 7 true].countP (fun e => e.isNewOk) = 1 ∧
    [Event.newCall (CBuf.nulTerm [98]) (CBuf.nulTerm [47]) (some 7),
     Event.definedCall 7 true].countP (fun e => e.isPut) = 0 := by
  refine ⟨rfl, rfl, rfl⟩

/-- Claim C2: every caller-supplied string is claimed to be encoded into
a null-terminated boundary buffer, with failure on an embedded NUL.
Evaluating Container::list at the store path with bytes 97, 0, 98 (an
embedded NUL): the operation proceeds without any failure and the
boundary call receives the raw unterminated str-slice bytes
(CBuf.raw, from lxcpath.as_ptr() with no CString conversion),
contradicting the claim. -/
theorem C2_list_passes_raw_unterminated_path :
    Container.list leakOps [97, 0, 98] =
      (Except.ok [], [Event.listCall (CBuf.raw [97, 0, 98]) 0]) := rfl

/-- Claim C3: every query-then-fill read is claimed to allocate the fill
buffer with count + 1 bytes and strip the trailing terminator.
Evaluating Container::get_keys at a probe count of 2: the fill call
receives a buffer of exactly 2 bytes with inlen 2 (not 3), contradicting
the claim for get_keys (get_config_item does allocate size + 1). -/
theorem C3_get_keys_buffer_not_count_plus_one :
    Container.get_keys keysOkOps [108] =
      some (Except.ok [],
        [CfgEvent.getKeysCall [108] 0 0 2,
         CfgEvent.getKeysCall [108] 2 2 2]) := rfl

/-- Claim C9: get_keys returns the empty list on every success path,
regardless of what the native boundary reports: the fetched key text is
decoded and discarded, never included in the returned value. -/
theorem C9_get_keys_returns_empty (ops : CfgOps) (keyPre : Bytes)
    (r : List Bytes) (tr : List CfgEvent)
    (h : Container.get_keys ops keyPre = some (Except.ok r, tr)) : r = [] := by
  simp only [Container.get_keys] at h
  split at h
  · exact Option.noConfusion h
  · split at h
    · simp at h
    · split at h
      · simp at h
        exact h.1
      · split at h
        · simp at h
        · simp at h
          exact h.1

/-- Witness for C9 at a concrete oracle whose probe reports two bytes. -/
theorem C9_witness :
    Container.get_keys keysOkOps [107] =
      some (Except.ok ([] : List Bytes),
        [CfgEvent.getKeysCall [107] 0 0 2, CfgEvent.getKeysCall [107] 2 2 2]) ∧
    ([] : List Bytes) = [] :=
  ⟨rfl, C9_get_keys_returns_empty keysOkOps [107] []
    [CfgEvent.getKeysCall [107] 0 0 2, CfgEvent.getKeysCall [107] 2 2 2] rfl⟩

/-- Claim C10: when native acquisition returns a null pointer, exists
returns false (not an error, not a panic), while get and create turn the
same acquisition failure into the Unknown error and list turns its
enumeration failure (a negative count) into the Unknown error. -/
theorem C10_exists_false_on_null_acquire (ops : NativeOps) (lxcpath name : Bytes)
    (t : Template)
    (hp : lxcpath.contains 0 = false) (hn : name.contains 0 = false)
    (htn : t.name.contains 0 = false)
    (hnull : ops.containerNew name lxcpath = none)
    (hneg : (ops.listDefined lxcpath).1 < 0) :
    (Container.exists ops lxcpath name).map Prod.fst = some false ∧
    (Container.get ops lxcpath name).map Prod.fst = some (Except.error Error.Unknown) ∧
    (Container.create ops lxcpath name t).map Prod.fst = some (Except.error Error.Unknown) ∧
    (Container.list ops lxcpath).1 = Except.error Error.Unknown := by
  have hp2 : 0 ∉ lxcpath := by simpa using hp
  have hn2 : 0 ∉ name := by simpa using hn
  have htn2 : 0 ∉ t.name := by simpa using htn
  refine ⟨?_, ?_, ?_, ?_⟩ <;>
    simp [Container.exists, Container.get, Container.create, Container.list,
      hp2, hn2, htn2, hnull, hneg]

/-- Witness for C10 at a concrete oracle whose acquisition returns null
and whose enumeration count is negative. -/
theorem C10_witness :
    (Container.exists nullOps [47] [99]).map Prod.fst = some false :=
  (C10_exists_false_on_null_acquire nullOps [47] [99] tBusy rfl rfl rfl rfl
    (by decide)).1

/-- Claim C4: when the acquired handle is already defined, create
returns ContainerAlreadyExists and the trace contains no creation call;
otherwise create invokes the native creation routine with the quiet flag
and an argv holding one entry per option in order followed by the null
sentinel, returns Unknown when that call reports false and the new
wrapper on success. -/
theorem C4_create_precheck_and_marshal (ops : NativeOps) (lxcpath name : Bytes)
    (t : Template)
    (hp : lxcpath.contains 0 = false) (hn : name.contains 0 = false)
    (htn : t.name.contains 0 = false)
    (ho : t.options.any (fun o => o.contains 0) = false)
    (ct : Nat) (hnew : ops.containerNew name lxcpath = some ct) :
    (ops.isDefined ct = true →
      Container.create ops lxcpath name t =
        some (Except.error Error.ContainerAlreadyExists,
          [Event.newCall (CBuf.nulTerm name) (CBuf.nulTerm lxcpath) (some ct),
           Event.definedCall ct true])) ∧
    (ops.isDefined ct = false →
      Container.create ops lxcpath name t =
        some ((if ops.createCall ct t.name LXC_CREATE_QUIET (createArgv t.options)
                then Except.ok (Container.from_raw ops ct)
                else Except.error Error.Unknown),
          [Event.newCall (CBuf.nulTerm name) (CBuf.nulTerm lxcpath) (some ct),
           Event.definedCall ct false,
           Event.createCall ct (CBuf.nulTerm t.name) LXC_CREATE_QUIET
             (createArgv t.options)
             (ops.createCall ct t.name LXC_CREATE_QUIET (createArgv t.options))])) ∧
    createArgv t.options = t.options.map (fun o => some (CBuf.nulTerm o)) ++ [none] := by
  have hp2 : 0 ∉ lxcpath := by simpa using hp
  have hn2 : 0 ∉ name := by simpa using hn
  have htn2 : 0 ∉ t.name := by simpa using htn
  have ho2 : ∀ x ∈ t.options, 0 ∉ x := by simpa using ho
  refine ⟨fun hd => ?_, fun hd => ?_, rfl⟩
  · simp [Container.create, hp2, hn2, htn2, hnew, hd]
  · cases hok : ops.createCall ct t.name LXC_CREATE_QUIET (createArgv t.options) <;>
      simp [Container.create, hp2, hn2, htn2, hnew, hd, hok] <;>
      exact ho2

/-- Witness for C4 at a concrete oracle and template: the undefined
branch creates and returns the wrapper. -/
theorem C4_witness :
    Container.create okOps [47] [99] tBusy =
      some (Except.ok (Container.from_raw okOps 7),
        [Event.newCall (CBuf.nulTerm [99]) (CBuf.nulTerm [47]) (some 7),
         Event.definedCall 7 false,
         Event.createCall 7 (CBuf.nulTerm [116]) LXC_CREATE_QUIET
           [some (CBuf.nulTerm [97]), some (CBuf.nulTerm [98]), none] true]) :=
  (C4_create_precheck_and_marshal okOps [47] [99] tBusy rfl rfl rfl rfl 7 rfl).2.1 rfl

/-- Claim C5: get returns ContainerDoesNotExists when the acquired
handle has no on-disk definition, and returns the container wrapper
exactly when the definition exists. -/
theorem C5_get_not_found (ops : NativeOps) (lxcpath name : Bytes)
    (hp : lxcpath.contains 0 = false) (hn : name.contains 0 = false)
    (ct : Nat) (hnew : ops.containerNew name lxcpath = some ct) :
    (Container.get ops lxcpath name).map Prod.fst =
      some (if ops.isDefined ct then Except.ok (Container.from_raw ops ct)
            else Except.error Error.ContainerDoesNotExists) := by
  have hp2 : 0 ∉ lxcpath := by simpa using hp
  have hn2 : 0 ∉ name := by simpa using hn
  cases hd : ops.isDefined ct <;>
    simp [Container.get, hp2, hn2, hnew, hd]

/-- Witness for C5 at a concrete oracle whose handle is undefined. -/
theorem C5_witness :
    (Container.get okOps [47] [99]).map Prod.fst =
      some (Except.error Error.ContainerDoesNotExists) :=
  C5_get_not_found okOps [47] [99] rfl rfl 7 rfl

/-- Claim C6: list returns Unknown on a negative enumeration count, the
empty collection (not an error) on a zero count, and otherwise exactly
one wrapper per enumerated handle in enumeration order. -/
theorem C6_list_cases (ops : NativeOps) (lxcpath : Bytes) (count : Int)
    (hs : List Nat) (hl : ops.listDefined lxcpath = (count, hs)) :
    (count < 0 → (Container.list ops lxcpath).1 = Except.error Error.Unknown) ∧
    (count = 0 → Container.list ops lxcpath =
      (Except.ok [], [Event.listCall (CBuf.raw lxcpath) 0])) ∧
    (0 < count → hs.length = count.toNat →
      (Container.list ops lxcpath).1 =
        Except.ok (hs.map (Container.from_raw ops))) := by
  refine ⟨fun hc => ?_, fun hc => ?_, fun hc hlen => ?_⟩
  · simp [Container.list, hl, hc]
  · simp [Container.list, hl, hc]
  · have h1 : ¬ count < 0 := by omega
    have h2 : ¬ count = 0 := by omega
    simp [Container.list, hl, h1, h2, ← hlen, List.take_length]

/-- Witness for C6 at a concrete oracle enumerating two handles. -/
theorem C6_witness :
    (Container.list okOps [47]).1 =
      Except.ok (([4, 5] : List Nat).map (Container.from_raw okOps)) :=
  (C6_list_cases okOps [47] 2 [4, 5] rfl).2.2 (by decide) rfl

/-- Claim C7: a successful set_config_item(key, v) followed immediately
by get_config_item(key) on the same handle returns exactly v: the probe
reports the stored length, the size + 1 buffer receives the value plus
its terminator, and the pop strips the terminator back off. -/
theorem C7_set_then_get_round_trip (st st2 : ConfigStore) (key v : Bytes)
    (hset : Container.set_config_item st key v = some (Except.ok (), st2)) :
    (Container.get_config_item (storeOps st2) key).map Prod.fst =
      some (Except.ok v) := by
  simp only [Container.set_config_item, storeSetConfigItem, Bool.not_true] at hset
  split at hset
  · exact Option.noConfusion hset
  · split at hset
    · exact Option.noConfusion hset
    · rename_i hk hv
      simp only [Bool.false_eq_true, if_false, Option.some.injEq, Prod.mk.injEq,
        true_and] at hset
      have hk2 : 0 ∉ key := by
        simpa using hk
      subst hset
      have hnn : ¬ ((v.length : Int) < 0) := by omega
      have hle : ((v.length : Int) + 1 ≤ (v.length : Int) + 1) := le_refl _
      simp [Container.get_config_item, storeOps, storeGetConfigItem, storeLookup,
        hk2, hnn, hle, Int.toNat_natCast, List.drop_replicate,
        List.dropLast_concat]

/-- Witness for C7 at a concrete store, key and value. -/
theorem C7_witness :
    (Container.get_config_item (storeOps [([107], [104, 105])]) [107]).map Prod.fst =
      some (Except.ok [104, 105]) :=
  C7_set_then_get_round_trip [] [([107], [104, 105])] [107] [104, 105] rfl

/-- Counterexample for C8: the template whose option list holds the
single bare flag byte string [102] cannot be produced through the public
builder API: Template::option always appends the flag and its value
together, so no reachable template has an odd-length option list. -/
theorem C8_counterexample :
    ¬ Template.Reachable { name := [116], options := [[102]] } := by
  intro h
  have he := Template.reachable_even_length h
  simp at he

/-- Claim C8 (amended): the option list is an append-only ordered list
of flat strings, but each append supplies a flag together with its
value (a bare flag alone cannot be appended, so every reachable option
list has even length), and the argv create builds passes the
accumulated options in exactly the order they were appended, followed
by the null sentinel. -/
theorem C8_option_list_pairs_in_order (t : Template) (o v : Bytes)
    (h : t.Reachable) :
    (t.option o v).options = t.options ++ [o, v] ∧
    (t.option o v).Reachable ∧
    (t.option o v).options.length % 2 = 0 ∧
    createArgv (t.option o v).options =
      (t.options ++ [o, v]).map (fun s => some (CBuf.nulTerm s)) ++ [none] := by
  refine ⟨rfl, Template.Reachable.option t o v h, ?_, rfl⟩
  exact Template.reachable_even_length (Template.Reachable.option t o v h)

/-- Witness for C8 at a concrete reachable template. -/
theorem C8_witness :
    ((Template.new [98]).option [111] [118]).options =
      (Template.new [98]).options ++ [[111], [118]] ∧
    ((Template.new [98]).option [111] [118]).Reachable ∧
    ((Template.new [98]).option [111] [118]).options.length % 2 = 0 ∧
    createArgv ((Template.new [98]).option [111] [118]).options =
      ((Template.new [98]).options ++ [[111], [118]]).map
        (fun s => some (CBuf.nulTerm s)) ++ [none] :=
  C8_option_list_pairs_in_order (Template.new [98]) [111] [118]
    (Template.Reachable.new [98])

end Lxc
